import Mathlib

/-!
Shallow embedding of the HTTP client library in `src/client.py`.

Conventions used throughout:
* byte sequences are `List Nat`; header mappings are insertion-ordered
  association lists mirroring Python `dict` semantics;
* external stdlib capabilities (gzip decompression, `json.dumps`,
  `urllib.parse.urlencode`, UTF-8 decoding of response bytes) are passed as
  explicit function parameters, while all dispatch logic of the library
  itself is embedded from the source;
* side effects (transport attempts, backoff sleeps, cookie-jar writes) are
  recorded in an explicit event trace.
-/

abbrev ByteSeq := List Nat

abbrev Headers := List (String × String)

abbrev Fields := List (String × String)

/-- Python `dict` lookup (exact, case-sensitive key match). -/
def dictGet : Headers → String → Option String
  | [], _ => none
  | (k0, v0) :: t, k => if k0 = k then some v0 else dictGet t k

/-- Python `dict.get(k, d)`. -/
def dictGetD (hs : Headers) (k d : String) : String :=
  (dictGet hs k).getD d

/-- Python `dict` item assignment: replaces the value of an existing key in
place, otherwise appends the new binding (insertion order preserved). -/
def dictSet : Headers → String → String → Headers
  | [], k, v => [(k, v)]
  | (k0, v0) :: t, k, v => if k0 = k then (k, v) :: t else (k0, v0) :: dictSet t k v

/-- Python `dict.update`. -/
def dictUpdate (hs new : Headers) : Headers :=
  new.foldl (fun acc kv => dictSet acc kv.1 kv.2) hs

/-- Lowercasing as Python `str.lower()` for ASCII header values, written
over the character list so that it evaluates definitionally. -/
def lowerStr (s : String) : String :=
  String.mk (s.data.map Char.toLower)

/-- Case-insensitive header lookup with default, as performed by
`response.headers.get` on an `email.message.Message`. -/
def msgGetD : Headers → String → String → String
  | [], _, d => d
  | (k0, v0) :: t, k, d => if lowerStr k0 = lowerStr k then v0 else msgGetD t k d

/-- Bool test for `pat` occurring as a contiguous run inside a character
list; used to model Python substring containment `pat in s`. -/
def charsInfix (pat : List Char) : List Char → Bool
  | [] => pat.isEmpty
  | c :: t => List.isPrefixOf pat (c :: t) || charsInfix pat t

/-- Python `pat in s` on strings. -/
def strContains (s pat : String) : Bool :=
  charsInfix pat.data s.data

/-- UTF-8 encoding of one character; model of Python `str.encode()` for a
single code point. -/
def utf8Char (c : Char) : List Nat :=
  let n := c.toNat
  if n < 128 then [n]
  else if n < 2048 then [192 + n / 64, 128 + n % 64]
  else if n < 65536 then [224 + n / 4096, 128 + (n / 64) % 64, 128 + n % 64]
  else [240 + n / 262144, 128 + (n / 4096) % 64, 128 + (n / 64) % 64, 128 + n % 64]

/-- UTF-8 bytes of a string, model of Python `str.encode()`. -/
def strBytes (s : String) : List Nat :=
  (s.data.map utf8Char).flatten

/-- Standard base64 alphabet. -/
def base64Chars : List Char :=
  ['A','B','C','D','E','F','G','H','I','J','K','L','M',
   'N','O','P','Q','R','S','T','U','V','W','X','Y','Z',
   'a','b','c','d','e','f','g','h','i','j','k','l','m',
   'n','o','p','q','r','s','t','u','v','w','x','y','z',
   '0','1','2','3','4','5','6','7','8','9','+','/']

/-- Sextet to base64 character. -/
def b64c (n : Nat) : Char := base64Chars.getD n 'A'

/-- RFC 4648 base64 of a byte sequence; model of Python
`base64.b64encode(..).decode()`. -/
def base64Encode : List Nat → String
  | [] => ""
  | [a] => String.mk [b64c (a / 4), b64c (a % 4 * 16), '=', '=']
  | [a, b] => String.mk [b64c (a / 4), b64c (a % 4 * 16 + b / 16), b64c (b % 16 * 4), '=']
  | a :: b :: c :: rest =>
    String.mk [b64c (a / 4), b64c (a % 4 * 16 + b / 16), b64c (b % 16 * 4 + c / 64),
      b64c (c % 64)] ++ base64Encode rest

/-- Embedding of the `HttpResponse` value (src/client.py lines 18-27).
`content` holds the raw bytes, `text` the decoded body. -/
structure HttpResponse where
  status_code : Nat
  text : String
  headers : Headers
  url : String
  reason : String
  content : ByteSeq
deriving DecidableEq

/-- Embedding of the `HttpResponse.ok` property (lines 41-43):
`200 <= status_code < 300`. -/
def HttpResponse.ok (r : HttpResponse) : Bool :=
  decide (200 ≤ r.status_code) && decide (r.status_code < 300)

/-- Embedding of `HttpResponse.raise_for_status` (lines 49-51): raises an
exception with the status and reason unless `ok` holds. -/
def HttpResponse.raise_for_status (r : HttpResponse) : Except String Unit :=
  if r.ok then Except.ok ()
  else Except.error ("HTTP " ++ toString r.status_code ++ " " ++ r.reason)

/-- JSON values as produced by the model of `json.loads`. -/
inductive JsonVal where
  | null
  | bool (b : Bool)
  | num (n : Int)
  | str (s : String)
  | arr (elems : List JsonVal)
  | obj (members : List (String × JsonVal))

/-- Whitespace skipping for the JSON reader. -/
def skipWs : List Char → List Char
  | [] => []
  | c :: t => if c = ' ' ∨ c = '\n' ∨ c = '\t' ∨ c = '\r' then skipWs t else c :: t

/-- Reads the body of a JSON string literal up to the closing quote. -/
def parseStringBody : List Char → Option (String × List Char)
  | [] => none
  | '"' :: rest => some ("", rest)
  | '\\' :: c :: rest =>
    match parseStringBody rest with
    | some (s, r) =>
      let c2 := if c = 'n' then '\n' else if c = 't' then '\t' else c
      some (String.mk (c2 :: s.data), r)
    | none => none
  | c :: rest =>
    match parseStringBody rest with
    | some (s, r) => some (String.mk (c :: s.data), r)
    | none => none

/-- Decimal value of a digit run. -/
def digitsVal (ds : List Char) : Nat :=
  ds.foldl (fun a c => a * 10 + (c.toNat - 48)) 0

/-- Reads a JSON integer literal. -/
def parseNum : List Char → Option (Int × List Char)
  | '-' :: rest =>
    let p := rest.span Char.isDigit
    if p.1.isEmpty then none else some (-(Int.ofNat (digitsVal p.1)), p.2)
  | s =>
    let p := s.span Char.isDigit
    if p.1.isEmpty then none else some (Int.ofNat (digitsVal p.1), p.2)

mutual

/-- Recursive-descent JSON value reader; `fuel` bounds nesting depth. -/
def parseVal : Nat → List Char → Except String (JsonVal × List Char)
  | 0, _ => Except.error "depth exceeded"
  | fuel + 1, s =>
    match skipWs s with
    | [] => Except.error "unexpected end of input"
    | c :: rest =>
      if c = 'n' then
        if List.isPrefixOf ['u', 'l', 'l'] rest then Except.ok (JsonVal.null, rest.drop 3)
        else Except.error "bad literal"
      else if c = 't' then
        if List.isPrefixOf ['r', 'u', 'e'] rest then Except.ok (JsonVal.bool true, rest.drop 3)
        else Except.error "bad literal"
      else if c = 'f' then
        if List.isPrefixOf ['a', 'l', 's', 'e'] rest then
          Except.ok (JsonVal.bool false, rest.drop 4)
        else Except.error "bad literal"
      else if c = '"' then
        match parseStringBody rest with
        | some (sv, r) => Except.ok (JsonVal.str sv, r)
        | none => Except.error "bad string"
      else if c = '[' then
        match skipWs rest with
        | ']' :: r2 => Except.ok (JsonVal.arr [], r2)
        | r2 =>
          match parseElems fuel r2 with
          | Except.ok (xs, r3) => Except.ok (JsonVal.arr xs, r3)
          | Except.error e => Except.error e
      else if c = '{' then
        match skipWs rest with
        | '}' :: r2 => Except.ok (JsonVal.obj [], r2)
        | r2 =>
          match parseMembers fuel r2 with
          | Except.ok (kvs, r3) => Except.ok (JsonVal.obj kvs, r3)
          | Except.error e => Except.error e
      else if c = '-' ∨ c.isDigit then
        match parseNum (c :: rest) with
        | some (n, r) => Except.ok (JsonVal.num n, r)
        | none => Except.error "bad number"
      else Except.error "unexpected character"

/-- Reads the comma-separated elements of a JSON array. -/
def parseElems : Nat → List Char → Except String (List JsonVal × List Char)
  | 0, _ => Except.error "depth exceeded"
  | fuel + 1, s =>
    match parseVal fuel s with
    | Except.error e => Except.error e
    | Except.ok (v, r) =>
      match skipWs r with
      | ',' :: r2 =>
        match parseElems fuel r2 with
        | Except.ok (xs, r3) => Except.ok (v :: xs, r3)
        | Except.error e => Except.error e
      | ']' :: r2 => Except.ok ([v], r2)
      | _ => Except.error "expected comma or close bracket"

/-- Reads the comma-separated members of a JSON object. -/
def parseMembers : Nat → List Char → Except String (List (String × JsonVal) × List Char)
  | 0, _ => Except.error "depth exceeded"
  | fuel + 1, s =>
    match skipWs s with
    | '"' :: rest =>
      match parseStringBody rest with
      | none => Except.error "bad key"
      | some (k, r) =>
        match skipWs r with
        | ':' :: r2 =>
          match parseVal fuel r2 with
          | Except.error e => Except.error e
          | Except.ok (v, r3) =>
            match skipWs r3 with
            | ',' :: r4 =>
              match parseMembers fuel r4 with
              | Except.ok (kvs, r5) => Except.ok ((k, v) :: kvs, r5)
              | Except.error e => Except.error e
            | '}' :: r4 => Except.ok ([(k, v)], r4)
            | _ => Except.error "expected comma or close brace"
        | _ => Except.error "expected colon"
    | _ => Except.error "expected key"

end

/-- Model of Python `json.loads`: parse a complete JSON document or report a
failure (an exception in the source). -/
def miniJsonParse (text : String) : Except String JsonVal :=
  match parseVal (text.length + 1) text.data with
  | Except.error e => Except.error e
  | Except.ok (v, rest) =>
    if skipWs rest = [] then Except.ok v else Except.error "trailing data"

/-- Embedding of `HttpResponse.get_json_safe` (lines 35-39): attempt
`json.loads` on the body text, returning `default` if anything fails.
`jsonLoads` is the stdlib parser capability. -/
def HttpResponse.get_json_safe (jsonLoads : String → Except String JsonVal)
    (r : HttpResponse) (default : JsonVal) : JsonVal :=
  match jsonLoads r.text with
  | Except.ok v => v
  | Except.error _ => default

/-- Embedding of `HttpClient._decompress` (lines 169-175). The stdlib
decompressor for gzip and the UTF-8 text decoding are taken as parameters.
The source's `deflate` branch is `io.BytesIO(data).read().decode()`, which
returns the input bytes unchanged, so no inflate capability occurs in it. -/
def HttpClient.decompress (gzipDecompress : ByteSeq → ByteSeq)
    (utf8Decode : ByteSeq → String) (headers : Headers) (data : ByteSeq) : String :=
  let encoding := lowerStr (msgGetD headers "Content-Encoding" "")
  if strContains encoding "gzip" then utf8Decode (gzipDecompress data)
  else if strContains encoding "deflate" then utf8Decode data
  else utf8Decode data

/-- Embedding of `HttpClient._build_headers` (lines 137-145): start from the
client defaults, overlay the per-call headers, then overwrite
`Authorization` when credentials are configured. -/
def HttpClient.build_headers (default_headers : Headers)
    (auth : Option (String × String)) (headers : Option Headers) : Headers :=
  let final := match headers with
    | none => default_headers
    | some hs => dictUpdate default_headers hs
  match auth with
  | none => final
  | some (user, pass) =>
    dictSet final "Authorization" ("Basic " ++ base64Encode (strBytes (user ++ ":" ++ pass)))

/-- Embedding of `HttpClient.RETRY_STATUSES` (line 60). -/
def HttpClient.RETRY_STATUSES : List Nat := [429, 500, 502, 503, 504]

/-- Client configuration relevant to the embedded pipeline
(`HttpClient.__init__`, lines 62-99). -/
structure ClientConfig where
  auth : Option (String × String)
  default_headers : Headers
  max_retries : Nat
  backoff_factor : Rat
  cookie_file : Option String

/-- External stdlib capabilities used by the pipeline. -/
structure Externals where
  gzipDecompress : ByteSeq → ByteSeq
  utf8Decode : ByteSeq → String
  jsonDumps : Fields → ByteSeq
  urlencode : Fields → ByteSeq

/-- Observable side effects of one logical call, in order of occurrence. -/
inductive Event where
  | attemptCall (n : Nat)
  | sleep (secs : Rat)
  | saveCookies
deriving DecidableEq

/-- Exceptions that can escape the retry wrapper. `typeError` stands for the
`TypeError` Python raises on `raise None`. -/
inductive PyError where
  | httpError (code : Nat) (reason : String)
  | exc (msg : String)
  | typeError
deriving DecidableEq

/-- Behavior of one invocation of the function wrapped by
`HttpClient._retry_request`: return an `HttpResponse`, return a
non-response value (`download`'s inner function returns `None`), raise
`urllib.error.HTTPError`, or raise some other exception. -/
inductive HttpClient.AttemptOutcome where
  | ok (r : HttpResponse)
  | okUnit
  | httpError (code : Nat) (reason : String)
  | exc (msg : String)

/-- Value returned by `HttpClient._retry_request` on success. -/
inductive HttpClient.RetryOutcome where
  | resp (r : HttpResponse)
  | unit
deriving DecidableEq

/-- Powers of two as rationals, `2 ** (attempt - 1)` in the source;
written recursively so that it evaluates definitionally. -/
def ratPow2 : Nat → Rat
  | 0 => 1
  | n + 1 => 2 * ratPow2 n

/-- Embedding of the loop body of `HttpClient._retry_request` (lines
147-167). `remaining` counts loop iterations still available
(`max_retries - attempt + 1`), `attempt` is the 1-based Python loop
counter, `lastExc` is the `last_exception` variable. An `HttpResponse`
with a retryable status is turned into a raised exception caught by the
generic handler, which sleeps `backoff * 2 ^ (attempt - 1)` and continues;
a raised `HTTPError` with a non-retryable code is re-raised immediately;
when the loop exhausts, `last_exception` is raised (a `TypeError` if it is
still `None`). -/
def HttpClient.retryLoop (backoff : Rat) (func : Nat → HttpClient.AttemptOutcome)
    (attempt : Nat) :
    Nat → Option PyError → Except PyError HttpClient.RetryOutcome × List Event
  | 0, lastExc => (Except.error (lastExc.getD PyError.typeError), [])
  | remaining + 1, lastExc =>
    match func attempt with
    | HttpClient.AttemptOutcome.ok r =>
      if HttpClient.RETRY_STATUSES.contains r.status_code then
        let e := PyError.exc ("Retry due to status code " ++ toString r.status_code)
        let rest := HttpClient.retryLoop backoff func (attempt + 1) remaining (some e)
        (rest.1,
          Event.attemptCall attempt :: Event.sleep (backoff * ratPow2 (attempt - 1)) :: rest.2)
      else
        (Except.ok (HttpClient.RetryOutcome.resp r), [Event.attemptCall attempt])
    | HttpClient.AttemptOutcome.okUnit =>
      (Except.ok HttpClient.RetryOutcome.unit, [Event.attemptCall attempt])
    | HttpClient.AttemptOutcome.httpError code reason =>
      if HttpClient.RETRY_STATUSES.contains code then
        let rest :=
          HttpClient.retryLoop backoff func (attempt + 1) remaining
            (some (PyError.httpError code reason))
        (rest.1,
          Event.attemptCall attempt :: Event.sleep (backoff * ratPow2 (attempt - 1)) :: rest.2)
      else
        (Except.error (PyError.httpError code reason), [Event.attemptCall attempt])
    | HttpClient.AttemptOutcome.exc m =>
      let rest :=
        HttpClient.retryLoop backoff func (attempt + 1) remaining (some (PyError.exc m))
      (rest.1,
        Event.attemptCall attempt :: Event.sleep (backoff * ratPow2 (attempt - 1)) :: rest.2)

/-- Embedding of `HttpClient._retry_request` (lines 147-167): run the loop
starting at attempt 1 with `last_exception = None`. -/
def HttpClient.retry_request (maxRetries : Nat) (backoff : Rat)
    (func : Nat → HttpClient.AttemptOutcome) :
    Except PyError HttpClient.RetryOutcome × List Event :=
  HttpClient.retryLoop backoff func 1 maxRetries none

/-- Result of one `opener.open` exchange as delivered by the transport. -/
structure TransportResponse where
  status : Nat
  reason : String
  headers : Headers
  url : String
  body : ByteSeq
deriving DecidableEq

/-- Behavior of one `opener.open` call: a normal response, a raised
`urllib.error.HTTPError` (which still carries a full response), or another
raised exception (connection failure, timeout, ...). -/
inductive TransportOutcome where
  | ok (r : TransportResponse)
  | httpError (r : TransportResponse)
  | fault (msg : String)
deriving DecidableEq

/-- Construction of the `HttpResponse` value inside `do_open`
(lines 204-209): the body text is `_decompress(response, raw)`. -/
def HttpClient.mkHttpResponse (ext : Externals) (t : TransportResponse) : HttpResponse :=
  { status_code := t.status
    text := HttpClient.decompress ext.gzipDecompress ext.utf8Decode t.headers t.body
    headers := t.headers
    url := t.url
    reason := t.reason
    content := t.body }

/-- Embedding of the nested `do_open` of `HttpClient._request` (lines
196-209): a raised `HTTPError` is caught and converted into an ordinary
`HttpResponse`; any other exception propagates. -/
def HttpClient.do_open (ext : Externals) (t : TransportOutcome) : HttpClient.AttemptOutcome :=
  match t with
  | TransportOutcome.ok r => HttpClient.AttemptOutcome.ok (HttpClient.mkHttpResponse ext r)
  | TransportOutcome.httpError r =>
    HttpClient.AttemptOutcome.ok (HttpClient.mkHttpResponse ext r)
  | TransportOutcome.fault m => HttpClient.AttemptOutcome.exc m

/-- Request body accepted by `_request`: raw bytes or a structured mapping
(Python `dict`). -/
inductive BodyData where
  | raw (bs : ByteSeq)
  | mapping (m : Fields)

/-- Embedding of the body-serialization block of `HttpClient._request`
(lines 182-190), applied to the already-merged header mapping: raw bytes
pass through; a mapping is encoded according to the lowercased
`Content-Type` header, defaulting to JSON and forcing the header for any
other or missing type, with no failure path. -/
def HttpClient.prepareBody (jsonDumps urlencode : Fields → ByteSeq) :
    Option BodyData → Headers → Option ByteSeq × Headers
  | none, headers => (none, headers)
  | some (BodyData.raw bs), headers => (some bs, headers)
  | some (BodyData.mapping m), headers =>
    let content_type := lowerStr (dictGetD headers "Content-Type" "")
    if content_type = "application/json" then (some (jsonDumps m), headers)
    else if content_type = "application/x-www-form-urlencoded" then
      (some (urlencode m), headers)
    else (some (jsonDumps m), dictSet headers "Content-Type" "application/json")

/-- Retry phase of `HttpClient._request` (lines 211-212): the transport's
behavior on the n-th attempt may depend on the prepared headers and body. -/
def HttpClient.requestCore (ext : Externals) (cfg : ClientConfig) (data : Option BodyData)
    (headers : Option Headers)
    (transports : Headers → Option ByteSeq → Nat → TransportOutcome) :
    Except PyError HttpClient.RetryOutcome × List Event :=
  let hs := HttpClient.build_headers cfg.default_headers cfg.auth headers
  let pb := HttpClient.prepareBody ext.jsonDumps ext.urlencode data hs
  HttpClient.retry_request cfg.max_retries cfg.backoff_factor
    (fun n => HttpClient.do_open ext (transports pb.2 pb.1 n))

/-- Outcome of `HttpClient._request`: the prepared headers and body that
were handed to the transport, the result (or propagated exception), and
the event trace. -/
structure RequestResult where
  sentHeaders : Headers
  sentBody : Option ByteSeq
  result : Except PyError HttpResponse
  events : List Event

/-- Embedding of `HttpClient._request` (lines 180-216): build headers,
serialize the body, run the retry wrapper around `do_open`, and save the
cookie jar afterwards when a cookie file is configured — the save is
skipped when the retry wrapper raises, because the exception propagates
first. -/
def HttpClient.request (ext : Externals) (cfg : ClientConfig) (data : Option BodyData)
    (headers : Option Headers)
    (transports : Headers → Option ByteSeq → Nat → TransportOutcome) : RequestResult :=
  let hs := HttpClient.build_headers cfg.default_headers cfg.auth headers
  let pb := HttpClient.prepareBody ext.jsonDumps ext.urlencode data hs
  let rr := HttpClient.requestCore ext cfg data headers transports
  { sentHeaders := pb.2
    sentBody := pb.1
    result :=
      match rr.1 with
      | Except.error e => Except.error e
      | Except.ok (HttpClient.RetryOutcome.resp r) => Except.ok r
      | Except.ok HttpClient.RetryOutcome.unit =>
        Except.error (PyError.exc "non-response result")
    events :=
      match rr.1 with
      | Except.error _ => rr.2
      | Except.ok _ =>
        rr.2 ++ (if cfg.cookie_file.isSome then [Event.saveCookies] else []) }

/-- Embedding of `HttpClient.get` (lines 218-221); query-string handling
operates on the URL, which is not modeled. -/
def HttpClient.get (ext : Externals) (cfg : ClientConfig) (headers : Option Headers)
    (transports : Headers → Option ByteSeq → Nat → TransportOutcome) : RequestResult :=
  HttpClient.request ext cfg none headers transports

/-- Embedding of `HttpClient.post` (lines 223-228): defaults `Content-Type`
to `application/json` in the per-call headers when absent. -/
def HttpClient.post (ext : Externals) (cfg : ClientConfig) (data : Option BodyData)
    (headers : Option Headers)
    (transports : Headers → Option ByteSeq → Nat → TransportOutcome) : RequestResult :=
  let hs0 := match headers with
    | none => ([] : Headers)
    | some hs => hs
  let hs1 :=
    if (dictGet hs0 "Content-Type").isSome then hs0
    else dictSet hs0 "Content-Type" "application/json"
  HttpClient.request ext cfg data (some hs1) transports

/-- Embedding of `HttpClient.put` (lines 230-231). -/
def HttpClient.put (ext : Externals) (cfg : ClientConfig) (data : Option BodyData)
    (headers : Option Headers)
    (transports : Headers → Option ByteSeq → Nat → TransportOutcome) : RequestResult :=
  HttpClient.request ext cfg data headers transports

/-- Embedding of `HttpClient.patch` (lines 233-234). -/
def HttpClient.patch (ext : Externals) (cfg : ClientConfig) (data : Option BodyData)
    (headers : Option Headers)
    (transports : Headers → Option ByteSeq → Nat → TransportOutcome) : RequestResult :=
  HttpClient.request ext cfg data headers transports

/-- Embedding of `HttpClient.delete` (lines 236-237). -/
def HttpClient.delete (ext : Externals) (cfg : ClientConfig) (headers : Option Headers)
    (transports : Headers → Option ByteSeq → Nat → TransportOutcome) : RequestResult :=
  HttpClient.request ext cfg none headers transports

/-- Embedding of `HttpClient.head` (lines 239-240). -/
def HttpClient.head (ext : Externals) (cfg : ClientConfig) (headers : Option Headers)
    (transports : Headers → Option ByteSeq → Nat → TransportOutcome) : RequestResult :=
  HttpClient.request ext cfg none headers transports

/-- Embedding of `HttpClient.download` (lines 242-252): the inner function
returns `None` on success and lets a raised `HTTPError` propagate to the
retry wrapper; unlike `_request`, no cookie-jar save is performed. -/
def HttpClient.download (cfg : ClientConfig)
    (transports : Headers → Option ByteSeq → Nat → TransportOutcome) :
    Except PyError Unit × List Event :=
  let hs := HttpClient.build_headers cfg.default_headers cfg.auth (some [])
  let func := fun n =>
    match transports hs none n with
    | TransportOutcome.ok _ => HttpClient.AttemptOutcome.okUnit
    | TransportOutcome.httpError r => HttpClient.AttemptOutcome.httpError r.status r.reason
    | TransportOutcome.fault m => HttpClient.AttemptOutcome.exc m
  let rr := HttpClient.retry_request cfg.max_retries cfg.backoff_factor func
  (match rr.1 with
   | Except.ok _ => Except.ok ()
   | Except.error e => Except.error e,
   rr.2)

/-- Chunked reading loop of `HttpClient.stream_response` (lines 296-300):
`fault` models a connection drop raised by the read that follows the
available data; `fuel` is the data length, enough for every iteration. -/
def HttpClient.readLoop (chunkSize : Nat) (fault : Option String) :
    Nat → ByteSeq → List ByteSeq × Option String
  | 0, _ => ([], fault)
  | fuel + 1, s =>
    match s with
    | [] => ([], fault)
    | _ :: _ =>
      let rest := HttpClient.readLoop chunkSize fault fuel (s.drop chunkSize)
      (s.take chunkSize :: rest.1, rest.2)

/-- Chunks yielded by the streaming read loop together with the fault, if
any, raised after the data is exhausted. `read(0)` returns an empty chunk,
so a zero chunk size ends the loop at once. -/
def HttpClient.readChunks (chunkSize : Nat) (s : ByteSeq) (fault : Option String) :
    List ByteSeq × Option String :=
  if chunkSize = 0 then ([], none) else HttpClient.readLoop chunkSize fault s.length s

/-- Embedding of `HttpClient.stream_response` (lines 292-300): build the
headers, open exactly one transport exchange with no retry wrapper, and
yield chunks as read; a mid-stream fault reaches the consumer directly
after the chunks read so far. -/
def HttpClient.stream_response (cfg : ClientConfig) (chunkSize : Nat)
    (transport : Headers → TransportOutcome) (midFault : Option String) :
    Except PyError (List ByteSeq × Option String) × List Event :=
  let hs := HttpClient.build_headers cfg.default_headers cfg.auth (some [])
  match transport hs with
  | TransportOutcome.ok r =>
    (Except.ok (HttpClient.readChunks chunkSize r.body midFault), [Event.attemptCall 1])
  | TransportOutcome.httpError r =>
    (Except.error (PyError.httpError r.status r.reason), [Event.attemptCall 1])
  | TransportOutcome.fault m => (Except.error (PyError.exc m), [Event.attemptCall 1])

/-- Sample response used by concrete instantiations. -/
def mkResp (status : Nat) (text : String) : HttpResponse :=
  { status_code := status, text := text, headers := [], url := "", reason := "", content := [] }

/-- Response with status 503, always retryable. -/
def resp503 : HttpResponse := mkResp 503 ""

/-- Transport response with status 404 (error, not retryable). -/
def tr404 : TransportResponse :=
  { status := 404, reason := "Not Found", headers := [], url := "u", body := [] }

/-- Transport response with status 200. -/
def tr200 : TransportResponse :=
  { status := 200, reason := "OK", headers := [], url := "u", body := [] }

/-- Transport response with a 1024-byte body. -/
def tr1024 : TransportResponse :=
  { status := 200, reason := "OK", headers := [], url := "u", body := List.replicate 1024 0 }

/-- Trivial instantiation of the external capabilities. -/
def extTriv : Externals :=
  { gzipDecompress := fun bs => bs
    utf8Decode := fun _ => ""
    jsonDumps := fun _ => []
    urlencode := fun _ => [] }

/-- Config with three retries and no cookie file. -/
def cfg0 : ClientConfig :=
  { auth := none, default_headers := [], max_retries := 3, backoff_factor := 1,
    cookie_file := none }

/-- Config with a cookie file configured. -/
def cfgC6 : ClientConfig :=
  { auth := none, default_headers := [], max_retries := 3, backoff_factor := 1,
    cookie_file := some "cookies.txt" }

/-- Sample JSON encoder stand-in for witnesses. -/
def j0 : Fields → ByteSeq := fun _ => [1]

/-- Sample form encoder stand-in for witnesses. -/
def u0 : Fields → ByteSeq := fun _ => [2]

/-- Lookup of a freshly assigned key returns the assigned value. -/
theorem dictGet_dictSet (hs : Headers) (k v : String) :
    dictGet (dictSet hs k v) k = some v := by
  induction hs with
  | nil => simp [dictSet, dictGet]
  | cons head t ih =>
    obtain ⟨k0, v0⟩ := head
    by_cases h : k0 = k
    · simp [dictSet, dictGet, h]
    · simp [dictSet, dictGet, h, ih]

/-- A list extended with a final element has that element as its last. -/
theorem lastAppendSingleton {α : Type _} (l : List α) (a : α) :
    (l ++ [a]).getLast? = some a := by
  rw [List.getLast?_append_cons]
  rfl

/-- C8: for every response, `ok` is true exactly when the status code lies
in `[200, 300)`; in particular 199 and 300 give false, 200 and 299 true. -/
theorem c8_ok_iff (r : HttpResponse) :
    (r.ok = true ↔ 200 ≤ r.status_code ∧ r.status_code < 300)
    ∧ (mkResp 199 "").ok = false ∧ (mkResp 200 "").ok = true
    ∧ (mkResp 299 "").ok = true ∧ (mkResp 300 "").ok = false := by
  refine ⟨?_, rfl, rfl, rfl, rfl⟩
  simp [HttpResponse.ok]

/-- Witness for C8 at status 200. -/
theorem c8_witness : (mkResp 200 "").ok = true :=
  (c8_ok_iff (mkResp 200 "")).2.2.1

/-- C4: with credentials configured, the merged headers always map
`Authorization` to `Basic` followed by the base64 of `user:pass`, whatever
the defaults and the caller-supplied headers contain. -/
theorem c4_auth_header_overrides (default_headers : Headers)
    (caller : Option Headers) (user pass : String) :
    dictGet (HttpClient.build_headers default_headers (some (user, pass)) caller)
        "Authorization"
      = some ("Basic " ++ base64Encode (strBytes (user ++ ":" ++ pass))) := by
  unfold HttpClient.build_headers
  cases caller <;> simp [dictGet_dictSet]

/-- Witness for C4: concrete credentials override a caller Authorization
header, and the encoded value is the RFC 4648 base64 of `user:pass`. -/
theorem c4_witness :
    dictGet (HttpClient.build_headers [("Accept", "*/*")] (some ("user", "pass"))
        (some [("Authorization", "Bearer token")])) "Authorization"
      = some "Basic dXNlcjpwYXNz" := by
  have h := c4_auth_header_overrides [("Accept", "*/*")]
    (some [("Authorization", "Bearer token")]) "user" "pass"
  exact h.trans (by rfl)

/-- C3 (code evaluation): the decoder applies gzip decompression whenever
the lowercased `Content-Encoding` value contains `gzip`, and otherwise —
including when it contains `deflate` — returns the body bytes decoded as
text with no decompression at all: the source's deflate branch
`io.BytesIO(data).read()` is an identity on the bytes, not a raw-inflate. -/
theorem c3_decompress_dispatch (gz : ByteSeq → ByteSeq) (u8 : ByteSeq → String)
    (hs : Headers) (data : ByteSeq) :
    (strContains (lowerStr (msgGetD hs "Content-Encoding" "")) "gzip" = true →
      HttpClient.decompress gz u8 hs data = u8 (gz data))
    ∧ (strContains (lowerStr (msgGetD hs "Content-Encoding" "")) "gzip" = false →
      HttpClient.decompress gz u8 hs data = u8 data) := by
  unfold HttpClient.decompress
  constructor <;> intro h <;> simp [h]

/-- Witness for C3 at the failing input `Content-Encoding: deflate`: the
body bytes come back untouched (stringified by the decoding stand-in),
even though a gzip capability that would visibly alter them is present. -/
theorem c3_witness :
    HttpClient.decompress (fun _ => [9]) (fun bs => toString bs)
        [("Content-Encoding", "deflate")] [120, 1, 42]
      = toString ([120, 1, 42] : ByteSeq) :=
  (c3_decompress_dispatch (fun _ => [9]) (fun bs => toString bs)
    [("Content-Encoding", "deflate")] [120, 1, 42]).2 rfl

/-- C5: raw bytes pass through unchanged; a structured mapping is encoded
as JSON when the lowercased `Content-Type` is `application/json`, as
form pairs when it is `application/x-www-form-urlencoded`, and for any
other or missing type it is JSON-encoded with the header forced to
`application/json`, no error being possible; `_request` consumes exactly
this serialization. -/
theorem c5_body_serialization (j u : Fields → ByteSeq) (bs : ByteSeq) (m : Fields)
    (hs : Headers) :
    HttpClient.prepareBody j u none hs = (none, hs)
    ∧ HttpClient.prepareBody j u (some (BodyData.raw bs)) hs = (some bs, hs)
    ∧ (lowerStr (dictGetD hs "Content-Type" "") = "application/json" →
        HttpClient.prepareBody j u (some (BodyData.mapping m)) hs = (some (j m), hs))
    ∧ (lowerStr (dictGetD hs "Content-Type" "") = "application/x-www-form-urlencoded" →
        HttpClient.prepareBody j u (some (BodyData.mapping m)) hs = (some (u m), hs))
    ∧ (lowerStr (dictGetD hs "Content-Type" "") ≠ "application/json" →
        lowerStr (dictGetD hs "Content-Type" "") ≠ "application/x-www-form-urlencoded" →
        HttpClient.prepareBody j u (some (BodyData.mapping m)) hs
          = (some (j m), dictSet hs "Content-Type" "application/json"))
    ∧ (∀ (ext : Externals) (cfg : ClientConfig) (data : Option BodyData)
        (headers : Option Headers)
        (transports : Headers → Option ByteSeq → Nat → TransportOutcome),
        (HttpClient.request ext cfg data headers transports).sentBody
          = (HttpClient.prepareBody ext.jsonDumps ext.urlencode data
              (HttpClient.build_headers cfg.default_headers cfg.auth headers)).1) := by
  refine ⟨rfl, rfl, ?_, ?_, ?_, fun _ _ _ _ _ => rfl⟩
  · intro h
    simp [HttpClient.prepareBody, h]
  · intro h
    simp [HttpClient.prepareBody, h]
  · intro h1 h2
    simp [HttpClient.prepareBody, h1, h2]

/-- Witness for C5: a dict body with no `Content-Type` configured is
JSON-encoded and the header is forced to `application/json`. -/
theorem c5_witness :
    HttpClient.prepareBody j0 u0 (some (BodyData.mapping [("a", "1")])) []
      = (some [1], [("Content-Type", "application/json")]) := by
  have h := (c5_body_serialization j0 u0 [] [("a", "1")] []).2.2.2.2.1
  exact h (by decide) (by decide)

/-- C7: `get_json_safe` is total — it yields the parsed value whenever the
parse succeeds and the caller-supplied default whenever it fails — and on
the concrete bodies an empty object, an empty array and a non-JSON body it
yields the object, the array and the default respectively. -/
theorem c7_get_json_safe (text : String) (default : JsonVal) :
    (∀ v, miniJsonParse text = Except.ok v →
      HttpResponse.get_json_safe miniJsonParse (mkResp 200 text) default = v)
    ∧ (∀ e, miniJsonParse text = Except.error e →
      HttpResponse.get_json_safe miniJsonParse (mkResp 200 text) default = default)
    ∧ HttpResponse.get_json_safe miniJsonParse (mkResp 200 "\x7b\x7d") default
      = JsonVal.obj []
    ∧ HttpResponse.get_json_safe miniJsonParse (mkResp 200 "[]") default
      = JsonVal.arr []
    ∧ HttpResponse.get_json_safe miniJsonParse (mkResp 200 "not json") default
      = default := by
  refine ⟨?_, ?_, rfl, rfl, rfl⟩
  · intro v h
    simp [HttpResponse.get_json_safe, mkResp, h]
  · intro e h
    simp [HttpResponse.get_json_safe, mkResp, h]

/-- Witness for C7 on the empty-array body. -/
theorem c7_witness :
    HttpResponse.get_json_safe miniJsonParse (mkResp 200 "[]") JsonVal.null
      = JsonVal.arr [] :=
  (c7_get_json_safe "[]" JsonVal.null).1 (JsonVal.arr []) rfl

/-- C1 counterexample: with `max_retries = 3`, `backoff_factor = 1` and an
attempt function that always reports status 503, the trace is not the one
the claim predicts (three attempts with sleeps of 1 and 2 seconds only in
between): the code also sleeps 4 seconds after the third attempt. -/
theorem c1_counterexample :
    (HttpClient.retry_request 3 1 (fun _ => HttpClient.AttemptOutcome.ok resp503)).2
      ≠ [Event.attemptCall 1, Event.sleep 1, Event.attemptCall 2, Event.sleep 2,
         Event.attemptCall 3] := by
  have step : (HttpClient.retry_request 3 1
        (fun _ => HttpClient.AttemptOutcome.ok resp503)).2
      = [Event.attemptCall 1, Event.sleep (1 * ratPow2 0), Event.attemptCall 2,
         Event.sleep (1 * ratPow2 1), Event.attemptCall 3,
         Event.sleep (1 * ratPow2 2)] := rfl
  rw [step]
  simp

/-- C1 amended: with `max_retries = 3` and an attempt function that always
returns a response with status 503, the controller performs exactly three
attempts and sleeps `backoff * 1`, `backoff * 2` and — after the third,
final attempt as well — `backoff * 4`, then surfaces the terminal failure
carrying the retry-status message. -/
theorem c1_amended (b : Rat) (r : HttpResponse) (h : r.status_code = 503) :
    HttpClient.retry_request 3 b (fun _ => HttpClient.AttemptOutcome.ok r)
      = (Except.error (PyError.exc ("Retry due to status code " ++ toString (503 : Nat))),
         [Event.attemptCall 1, Event.sleep b, Event.attemptCall 2, Event.sleep (b * 2),
          Event.attemptCall 3, Event.sleep (b * 4)]) := by
  cases r with
  | mk sc tx hd u rs ct =>
    obtain rfl : sc = 503 := h
    have step : HttpClient.retry_request 3 b
        (fun _ => HttpClient.AttemptOutcome.ok ⟨503, tx, hd, u, rs, ct⟩)
        = (Except.error
            (PyError.exc ("Retry due to status code " ++ toString (503 : Nat))),
           [Event.attemptCall 1, Event.sleep (b * ratPow2 0), Event.attemptCall 2,
            Event.sleep (b * ratPow2 1), Event.attemptCall 3,
            Event.sleep (b * ratPow2 2)]) := rfl
    rw [step]
    norm_num [ratPow2]

/-- Witness for C1 (amended) at `backoff_factor = 1`. -/
theorem c1_witness :
    HttpClient.retry_request 3 1 (fun _ => HttpClient.AttemptOutcome.ok resp503)
      = (Except.error (PyError.exc ("Retry due to status code " ++ toString (503 : Nat))),
         [Event.attemptCall 1, Event.sleep 1, Event.attemptCall 2, Event.sleep 2,
          Event.attemptCall 3, Event.sleep 4]) := by
  have h := c1_amended 1 resp503 rfl
  exact h.trans (by norm_num)

/-- A first attempt that returns a response outside the retryable-status
set ends the retry wrapper at once with that response. -/
theorem retry_first_success (k : Nat) (b : Rat)
    (func : Nat → HttpClient.AttemptOutcome) (r : HttpResponse)
    (hf : func 1 = HttpClient.AttemptOutcome.ok r)
    (hst : HttpClient.RETRY_STATUSES.contains r.status_code = false) :
    HttpClient.retry_request (k + 1) b func
      = (Except.ok (HttpClient.RetryOutcome.resp r), [Event.attemptCall 1]) := by
  have hst2 : r.status_code ∉ HttpClient.RETRY_STATUSES := by simpa using hst
  simp [HttpClient.retry_request, HttpClient.retryLoop, hf, hst2]

/-- C2: a response with an error status outside the retryable set — served
by the transport either as a plain response or as a raised `HTTPError` —
comes back from the buffered pipeline as an ordinary response value after a
single attempt, with an exception arising only from an explicit
`raise_for_status`; each buffered method funnels into the same `_request`
primitive. -/
theorem c2_non_retryable_status (ext : Externals) (cfg : ClientConfig)
    (data : Option BodyData) (headers : Option Headers) (tr : TransportResponse)
    (t : TransportOutcome) (hmr : 1 ≤ cfg.max_retries)
    (hst : HttpClient.RETRY_STATUSES.contains tr.status = false)
    (herr : ¬(200 ≤ tr.status ∧ tr.status < 300))
    (ht : t = TransportOutcome.ok tr ∨ t = TransportOutcome.httpError tr) :
    (HttpClient.request ext cfg data headers (fun _ _ _ => t)).result
      = Except.ok (HttpClient.mkHttpResponse ext tr)
    ∧ (HttpClient.request ext cfg data headers (fun _ _ _ => t)).events
      = Event.attemptCall 1 ::
        (if cfg.cookie_file.isSome then [Event.saveCookies] else [])
    ∧ (HttpClient.mkHttpResponse ext tr).status_code = tr.status
    ∧ (HttpClient.mkHttpResponse ext tr).raise_for_status
      = Except.error ("HTTP " ++ toString tr.status ++ " " ++ tr.reason)
    ∧ HttpClient.get ext cfg headers (fun _ _ _ => t)
      = HttpClient.request ext cfg none headers (fun _ _ _ => t)
    ∧ HttpClient.put ext cfg data headers (fun _ _ _ => t)
      = HttpClient.request ext cfg data headers (fun _ _ _ => t)
    ∧ HttpClient.patch ext cfg data headers (fun _ _ _ => t)
      = HttpClient.request ext cfg data headers (fun _ _ _ => t)
    ∧ HttpClient.delete ext cfg headers (fun _ _ _ => t)
      = HttpClient.request ext cfg none headers (fun _ _ _ => t)
    ∧ HttpClient.head ext cfg headers (fun _ _ _ => t)
      = HttpClient.request ext cfg none headers (fun _ _ _ => t)
    ∧ HttpClient.post ext cfg data none (fun _ _ _ => t)
      = HttpClient.request ext cfg data (some [("Content-Type", "application/json")])
          (fun _ _ _ => t) := by
  obtain ⟨k, hk⟩ : ∃ k, cfg.max_retries = k + 1 := ⟨cfg.max_retries - 1, by omega⟩
  have hf : HttpClient.do_open ext t
      = HttpClient.AttemptOutcome.ok (HttpClient.mkHttpResponse ext tr) := by
    rcases ht with rfl | rfl <;> rfl
  have hcore : HttpClient.requestCore ext cfg data headers (fun _ _ _ => t)
      = (Except.ok (HttpClient.RetryOutcome.resp (HttpClient.mkHttpResponse ext tr)),
         [Event.attemptCall 1]) := by
    unfold HttpClient.requestCore
    rw [hk]
    exact retry_first_success k cfg.backoff_factor _ _ hf hst
  have hok : (HttpClient.mkHttpResponse ext tr).ok = false := by
    simp only [HttpResponse.ok, HttpClient.mkHttpResponse, Bool.and_eq_false_iff,
      decide_eq_false_iff_not]
    omega
  refine ⟨?_, ?_, rfl, ?_, rfl, rfl, rfl, rfl, rfl, rfl⟩
  · simp [HttpClient.request, hcore]
  · simp [HttpClient.request, hcore]
  · unfold HttpResponse.raise_for_status
    rw [hok]
    rfl

/-- Witness for C2: a 404 raised by the transport as `HTTPError` is
returned as an ordinary response after one attempt, and only
`raise_for_status` turns it into an exception. -/
theorem c2_witness :
    (HttpClient.request extTriv cfg0 none none
        (fun _ _ _ => TransportOutcome.httpError tr404)).result
      = Except.ok (HttpClient.mkHttpResponse extTriv tr404)
    ∧ (HttpClient.request extTriv cfg0 none none
        (fun _ _ _ => TransportOutcome.httpError tr404)).events = [Event.attemptCall 1]
    ∧ (HttpClient.mkHttpResponse extTriv tr404).raise_for_status
      = Except.error "HTTP 404 Not Found" := by
  have h := c2_non_retryable_status extTriv cfg0 none none tr404
    (TransportOutcome.httpError tr404) (by decide) (by decide) (by decide) (Or.inr rfl)
  exact ⟨h.1, h.2.1.trans (by rfl), h.2.2.2.1.trans (by rfl)⟩

/-- Unfolding of the result field of `request`. -/
theorem request_result_eq (ext : Externals) (cfg : ClientConfig) (data : Option BodyData)
    (headers : Option Headers)
    (transports : Headers → Option ByteSeq → Nat → TransportOutcome) :
    (HttpClient.request ext cfg data headers transports).result
      = match (HttpClient.requestCore ext cfg data headers transports).1 with
        | Except.error e => Except.error e
        | Except.ok (HttpClient.RetryOutcome.resp r) => Except.ok r
        | Except.ok HttpClient.RetryOutcome.unit =>
          Except.error (PyError.exc "non-response result") := rfl

/-- Unfolding of the event trace of `request`: the cookie save happens
exactly when the retry wrapper returns normally and a file is set. -/
theorem request_events_eq (ext : Externals) (cfg : ClientConfig) (data : Option BodyData)
    (headers : Option Headers)
    (transports : Headers → Option ByteSeq → Nat → TransportOutcome) :
    (HttpClient.request ext cfg data headers transports).events
      = match (HttpClient.requestCore ext cfg data headers transports).1 with
        | Except.error _ => (HttpClient.requestCore ext cfg data headers transports).2
        | Except.ok _ => (HttpClient.requestCore ext cfg data headers transports).2
            ++ (if cfg.cookie_file.isSome then [Event.saveCookies] else []) := rfl

/-- The retry loop emits only attempt and sleep events, never a cookie
save. -/
theorem retryLoop_no_save (b : Rat) (func : Nat → HttpClient.AttemptOutcome) :
    ∀ (remaining attempt : Nat) (lastExc : Option PyError),
      Event.saveCookies ∉ (HttpClient.retryLoop b func attempt remaining lastExc).2 := by
  intro remaining
  induction remaining with
  | zero =>
    intro attempt lastExc
    simp [HttpClient.retryLoop]
  | succ n ih =>
    intro attempt lastExc
    simp only [HttpClient.retryLoop]
    cases hf : func attempt with
    | ok r =>
      by_cases hs : r.status_code ∈ HttpClient.RETRY_STATUSES
      · simp [hs, ih]
      · simp [hs]
    | okUnit => simp
    | httpError code reason =>
      by_cases hs : code ∈ HttpClient.RETRY_STATUSES
      · simp [hs, ih]
      · simp [hs]
    | exc m => simp [ih]

/-- The retry phase of `request` never saves cookies by itself. -/
theorem requestCore_no_save (ext : Externals) (cfg : ClientConfig)
    (data : Option BodyData) (headers : Option Headers)
    (transports : Headers → Option ByteSeq → Nat → TransportOutcome) :
    Event.saveCookies ∉ (HttpClient.requestCore ext cfg data headers transports).2 := by
  simp only [HttpClient.requestCore, HttpClient.retry_request]
  exact retryLoop_no_save _ _ _ _ _

/-- `download` never writes the cookie jar: its trace comes entirely from
the retry loop. -/
theorem download_no_save (cfg : ClientConfig)
    (transports : Headers → Option ByteSeq → Nat → TransportOutcome) :
    Event.saveCookies ∉ (HttpClient.download cfg transports).2 := by
  have h : (HttpClient.download cfg transports).2
      = (HttpClient.retryLoop cfg.backoff_factor
          (fun n =>
            match transports
                (HttpClient.build_headers cfg.default_headers cfg.auth (some [])) none n with
            | TransportOutcome.ok _ => HttpClient.AttemptOutcome.okUnit
            | TransportOutcome.httpError r =>
              HttpClient.AttemptOutcome.httpError r.status r.reason
            | TransportOutcome.fault m => HttpClient.AttemptOutcome.exc m)
          1 cfg.max_retries none).2 := rfl
  rw [h]
  exact retryLoop_no_save _ _ _ _ _

/-- C6 amended: the buffered `_request` pipeline writes the cookie jar
exactly after a completed exchange when a cookie file is configured — the
trace then ends with the save event, and no save event occurs without a
configured file — but `download` performs no cookie-jar write at all. -/
theorem c6_amended (ext : Externals) (cfg : ClientConfig) (data : Option BodyData)
    (headers : Option Headers)
    (transports : Headers → Option ByteSeq → Nat → TransportOutcome) :
    (∀ r : HttpResponse, cfg.cookie_file.isSome = true →
      (HttpClient.request ext cfg data headers transports).result = Except.ok r →
      (HttpClient.request ext cfg data headers transports).events.getLast?
        = some Event.saveCookies)
    ∧ (cfg.cookie_file = none →
      Event.saveCookies ∉ (HttpClient.request ext cfg data headers transports).events)
    ∧ Event.saveCookies ∉ (HttpClient.download cfg transports).2 := by
  refine ⟨?_, ?_, download_no_save cfg transports⟩
  · intro r hsome hres
    rw [request_result_eq] at hres
    rw [request_events_eq]
    rcases h1 : (HttpClient.requestCore ext cfg data headers transports).1 with e | out
    · rw [h1] at hres
      simp at hres
    · cases out with
      | resp r2 =>
        simp [hsome, lastAppendSingleton]
      | unit =>
        rw [h1] at hres
        simp at hres
  · intro hcf
    rw [request_events_eq]
    rcases h1 : (HttpClient.requestCore ext cfg data headers transports).1 with e | out
    · exact requestCore_no_save ext cfg data headers transports
    · simp [hcf]
      exact requestCore_no_save ext cfg data headers transports

/-- Witness for C6 (amended): a successful buffered request with a cookie
file configured ends its trace with the cookie save. -/
theorem c6_witness :
    (HttpClient.request extTriv cfgC6 none none
        (fun _ _ _ => TransportOutcome.ok tr200)).events.getLast?
      = some Event.saveCookies := by
  exact (c6_amended extTriv cfgC6 none none (fun _ _ _ => TransportOutcome.ok tr200)).1
    (HttpClient.mkHttpResponse extTriv tr200) rfl rfl

/-- C6 counterexample: with a cookie file configured, a completed
`download` exchange performs no cookie-jar write, contradicting the claim
that every public operation persists the jar after every completed
exchange. -/
theorem c6_counterexample :
    (HttpClient.download cfgC6 (fun _ _ _ => TransportOutcome.ok tr200)).1
      = Except.ok ()
    ∧ Event.saveCookies ∉
        (HttpClient.download cfgC6 (fun _ _ _ => TransportOutcome.ok tr200)).2 :=
  ⟨rfl, by decide⟩

/-- The streaming read loop reports exactly the pending fault once the
data is exhausted, regardless of fuel. -/
theorem readLoop_snd (chunkSize : Nat) (f : Option String) :
    ∀ (fuel : Nat) (s : ByteSeq), (HttpClient.readLoop chunkSize f fuel s).2 = f := by
  intro fuel
  induction fuel with
  | zero =>
    intro s
    rfl
  | succ n ih =>
    intro s
    cases s with
    | nil => rfl
    | cons a t => simp [HttpClient.readLoop, ih]

/-- A nonzero chunk size propagates the mid-stream fault to the consumer. -/
theorem readChunks_snd (chunkSize : Nat) (h : chunkSize ≠ 0) (s : ByteSeq)
    (f : Option String) : (HttpClient.readChunks chunkSize s f).2 = f := by
  simp [HttpClient.readChunks, h, readLoop_snd]

set_option maxRecDepth 8000 in
/-- C9: streaming a 1024-byte body with chunk size 128 yields exactly 8
chunks whose lengths sum to 1024 with no pending fault; every
`stream_response` call opens exactly one transport exchange with no retry
or sleep; and a mid-stream fault reaches the consumer right after the
chunks read so far. -/
theorem c9_stream_response :
    (HttpClient.stream_response cfg0 128 (fun _ => TransportOutcome.ok tr1024) none).1
      = Except.ok (HttpClient.readChunks 128 (List.replicate 1024 0) none)
    ∧ (HttpClient.readChunks 128 (List.replicate 1024 0) none).1.length = 8
    ∧ ((HttpClient.readChunks 128 (List.replicate 1024 0) none).1.map List.length).sum
      = 1024
    ∧ (HttpClient.readChunks 128 (List.replicate 1024 0) none).2 = none
    ∧ (∀ (cfg : ClientConfig) (chunkSize : Nat) (transport : Headers → TransportOutcome)
        (midFault : Option String),
        (HttpClient.stream_response cfg chunkSize transport midFault).2
          = [Event.attemptCall 1])
    ∧ (∀ (cfg : ClientConfig) (r : TransportResponse) (m : String),
        (HttpClient.stream_response cfg 128 (fun _ => TransportOutcome.ok r) (some m)).1
          = Except.ok (HttpClient.readChunks 128 r.body (some m))
        ∧ (HttpClient.readChunks 128 r.body (some m)).2 = some m) := by
  refine ⟨rfl, by rfl, by rfl, by rfl, ?_, ?_⟩
  · intro cfg chunkSize transport midFault
    simp only [HttpClient.stream_response]
    rcases htr : transport (HttpClient.build_headers cfg.default_headers cfg.auth (some []))
      with r | r | m <;> rfl
  · intro cfg r m
    exact ⟨rfl, readChunks_snd 128 (by decide) r.body (some m)⟩

/-- Witness for C9: the concrete 1024-byte stream opens one exchange and
is subject to no retry. -/
theorem c9_witness :
    (HttpClient.stream_response cfg0 128 (fun _ => TransportOutcome.ok tr1024) none).2
      = [Event.attemptCall 1] :=
  (c9_stream_response).2.2.2.2.1 cfg0 128 (fun _ => TransportOutcome.ok tr1024) none

/-- On a `last_exception` already set to a real exception, exhausting the
retry loop never surfaces the `raise None` `TypeError`. -/
theorem retryLoop_no_typeError (b : Rat) (func : Nat → HttpClient.AttemptOutcome) :
    ∀ (remaining attempt : Nat) (e : PyError), e ≠ PyError.typeError →
      (HttpClient.retryLoop b func attempt remaining (some e)).1
        ≠ Except.error PyError.typeError := by
  intro remaining
  induction remaining with
  | zero =>
    intro attempt e he
    simp [HttpClient.retryLoop, he]
  | succ n ih =>
    intro attempt e he
    simp only [HttpClient.retryLoop]
    cases hf : func attempt with
    | ok r =>
      by_cases hs : r.status_code ∈ HttpClient.RETRY_STATUSES
      · simp [hs]
        apply ih
        simp
      · simp [hs]
    | okUnit => simp
    | httpError code reason =>
      by_cases hs : code ∈ HttpClient.RETRY_STATUSES
      · simp [hs]
        apply ih
        simp
      · simp [hs]
    | exc m =>
      apply ih
      simp

/-- C10: with `max_retries = 0` the retry loop runs zero iterations and
raises its still-`None` `last_exception`, so every buffered operation
(through `_request` or `download`) fails with a `TypeError` and performs
no transport exchange and no sleep; with at least one allowed attempt the
exhaustion branch never raises that `TypeError`. -/
theorem c10_zero_retries :
    (∀ (ext : Externals) (auth : Option (String × String)) (dh : Headers) (b : Rat)
      (cf : Option String) (data : Option BodyData) (headers : Option Headers)
      (transports : Headers → Option ByteSeq → Nat → TransportOutcome),
      (HttpClient.request ext ⟨auth, dh, 0, b, cf⟩ data headers transports).result
        = Except.error PyError.typeError
      ∧ (HttpClient.request ext ⟨auth, dh, 0, b, cf⟩ data headers transports).events = [])
    ∧ (∀ (auth : Option (String × String)) (dh : Headers) (b : Rat) (cf : Option String)
      (transports : Headers → Option ByteSeq → Nat → TransportOutcome),
      HttpClient.download ⟨auth, dh, 0, b, cf⟩ transports
        = (Except.error PyError.typeError, []))
    ∧ (∀ (k : Nat) (b : Rat) (func : Nat → HttpClient.AttemptOutcome),
      (HttpClient.retry_request (k + 1) b func).1 ≠ Except.error PyError.typeError) := by
  refine ⟨fun _ _ _ _ _ _ _ _ => ⟨rfl, rfl⟩, fun _ _ _ _ _ => rfl, ?_⟩
  intro k b func
  simp only [HttpClient.retry_request, HttpClient.retryLoop]
  cases hf : func 1 with
  | ok r =>
    by_cases hs : r.status_code ∈ HttpClient.RETRY_STATUSES
    · simp [hs]
      apply retryLoop_no_typeError b func k 2
      simp
    · simp [hs]
  | okUnit => simp
  | httpError code reason =>
    by_cases hs : code ∈ HttpClient.RETRY_STATUSES
    · simp [hs]
      apply retryLoop_no_typeError b func k 2
      simp
    · simp [hs]
  | exc m =>
    apply retryLoop_no_typeError b func k 2
    simp

/-- Witness for C10: a concrete client with `max_retries = 0` fails with
the `TypeError` and performs no exchange. -/
theorem c10_witness :
    (HttpClient.request extTriv ⟨none, [], 0, 1, none⟩ none none
        (fun _ _ _ => TransportOutcome.ok tr200)).result
      = Except.error PyError.typeError :=
  (c10_zero_retries.1 extTriv none [] 1 none none none
    (fun _ _ _ => TransportOutcome.ok tr200)).1
